import Mathlib

/-!
# Verification of the sodapy2 client core

Shallow embedding of the request-building, pagination, status-gating,
response-decoding and error-rendering logic of the sodapy2 library
(`sodapy2/socrata.py`, `sodapy2/utils.py`, `sodapy2/response.py`),
together with theorems settling the specification claims about it.

External collaborators (the HTTP transport, the JSON parser `json.loads`,
the CSV reader `csv.reader`) are abstracted as function parameters; all
logic belonging to the library itself is translated from the source.
-/

/-! ## Pagination engine (`Socrata.get_all`, socrata.py lines 321-344)

The generator body is

    while True:
        response = self.get(*args, **params)
        for item in response: yield item
        if len(response) < limit: return
        params["offset"] += limit

The composite `self.get` + transport + decode is abstracted as
`server : Nat → List α`, mapping the offset of a request to the page of
records the call returns; `limit` is fixed for the whole call, exactly as
`params.get("limit", self.DEFAULT_LIMIT)` is read once and never changed.
Because the loop need not terminate, the model is fuel-indexed: `none`
means the loop ran for more than `fuel` iterations.
-/

/-- `Socrata.DEFAULT_LIMIT` (socrata.py line 23). -/
def DEFAULT_LIMIT : Nat := 1000

/-- The initial cursor of `get_all`: offset defaults to `0`, limit to
`DEFAULT_LIMIT` (socrata.py lines 331-335). -/
def get_all_start (offset limit : Option Nat) : Nat × Nat :=
  (offset.getD 0, limit.getD DEFAULT_LIMIT)

/-- One run of the `get_all` loop with at most `fuel` iterations.
Returns `some (offsets, items)` when the loop terminates within `fuel`
iterations, where `offsets` lists the offset of every request issued (in
order) and `items` the records yielded; `none` when the loop is still
running after `fuel` iterations. Each iteration issues one request at the
current offset, yields the whole page, stops if the page is shorter than
`limit`, and otherwise re-enters with `offset + limit`
(socrata.py lines 337-344). -/
def get_all_run {α : Type} (server : Nat → List α) (limit offset : Nat) :
    Nat → Option (List Nat × List α)
  | 0 => none
  | fuel + 1 =>
    let response := server offset
    if response.length < limit then
      some ([offset], response)
    else
      match get_all_run server limit (offset + limit) fuel with
      | none => none
      | some (offs, rest) => some (offset :: offs, response ++ rest)

/-- The offsets of the requests issued by the first `fuel` iterations of
the `get_all` loop (whether or not the loop terminates within them). -/
def get_all_offsets {α : Type} (server : Nat → List α) (limit offset : Nat) :
    Nat → List Nat
  | 0 => []
  | fuel + 1 =>
    let response := server offset
    if response.length < limit then
      [offset]
    else
      offset :: get_all_offsets server limit (offset + limit) fuel

/-- A server presenting pages of sizes 1000, 1000 and 37 at offsets
0, 1000 and 2000 for limit 1000, and nothing elsewhere. -/
def pages3Server : Nat → List Nat := fun off =>
  if off = 0 then List.replicate 1000 0
  else if off = 1000 then List.replicate 1000 1
  else if off = 2000 then List.replicate 37 2
  else []

/-- A server whose first page holds 1500 records (more than the nominal
limit 1000), with no records at any other offset. -/
def longPageServer : Nat → List Unit := fun off =>
  if off = 0 then List.replicate 1500 () else []

theorem get_all_run_zero {α : Type} (server : Nat → List α) (limit offset : Nat) :
    get_all_run server limit offset 0 = none := rfl

theorem get_all_run_succ {α : Type} (server : Nat → List α) (limit offset fuel : Nat) :
    get_all_run server limit offset (fuel + 1) =
      if (server offset).length < limit then
        some ([offset], server offset)
      else
        match get_all_run server limit (offset + limit) fuel with
        | none => none
        | some (offs, rest) => some (offset :: offs, server offset ++ rest) := rfl

theorem get_all_offsets_succ {α : Type} (server : Nat → List α) (limit offset fuel : Nat) :
    get_all_offsets server limit offset (fuel + 1) =
      if (server offset).length < limit then [offset]
      else offset :: get_all_offsets server limit (offset + limit) fuel := rfl

/-- Helper: in a terminating run, the first request is at the initial
offset and each later request is at the previous offset plus the nominal
limit (socrata.py line 344: `params["offset"] += limit`). -/
theorem get_all_run_offsets_spec {α : Type} (server : Nat → List α) (limit : Nat) :
    ∀ fuel offset offs items,
      get_all_run server limit offset fuel = some (offs, items) →
      offs.head? = some offset ∧ offs.Chain' (fun a b => b = a + limit) := by
  intro fuel
  induction fuel with
  | zero =>
    intro offset offs items h
    exact absurd h (by simp [get_all_run])
  | succ n ih =>
    intro offset offs items h
    rw [get_all_run_succ] at h
    by_cases hs : (server offset).length < limit
    · rw [if_pos hs] at h
      simp only [Option.some.injEq, Prod.mk.injEq] at h
      obtain ⟨h1, -⟩ := h
      subst h1
      simp
    · rw [if_neg hs] at h
      cases hrec : get_all_run server limit (offset + limit) n with
      | none => rw [hrec] at h; simp at h
      | some p =>
        obtain ⟨offs', rest⟩ := p
        rw [hrec] at h
        simp only [Option.some.injEq, Prod.mk.injEq] at h
        obtain ⟨h1, -⟩ := h
        subst h1
        obtain ⟨ih1, ih2⟩ := ih (offset + limit) offs' rest hrec
        refine ⟨rfl, ?_⟩
        cases offs' with
        | nil => simp
        | cons b t =>
          simp only [List.head?_cons, Option.some.injEq] at ih1
          rw [List.chain'_cons]
          exact ⟨ih1, ih2⟩

/-- C2: after a page whose record count is strictly less than the
requested limit, the `get_all` loop terminates: it yields exactly that
page's records, issues no further request (the page's offset is the only
request offset), and in particular an empty first page terminates with
zero yielded records. -/
theorem get_all_short_page_terminates {α : Type} (server : Nat → List α)
    (limit offset fuel : Nat) (h : (server offset).length < limit) :
    get_all_run server limit offset (fuel + 1) = some ([offset], server offset) ∧
    get_all_offsets server limit offset (fuel + 1) = [offset] := by
  rw [get_all_run_succ, get_all_offsets_succ]
  rw [if_pos h, if_pos h]
  exact ⟨rfl, rfl⟩

/-- C2 witness: an empty first page under the default limit 1000 makes
exactly one request, at offset 0, and yields zero records. -/
theorem get_all_short_page_terminates_witness :
    get_all_run (fun _ => ([] : List Nat)) 1000 0 (0 + 1) = some ([0], []) ∧
    get_all_offsets (fun _ => ([] : List Nat)) 1000 0 (0 + 1) = [0] :=
  get_all_short_page_terminates (fun _ => ([] : List Nat)) 1000 0 0 (by decide)

/-- C10: with an explicit limit of 0 the effective limit of the cursor is
0, no page's record count is ever strictly less than the limit, the
offset advances by 0 each round, and so the `get_all` loop never
terminates: for every fuel it is still running, having issued every one
of its requests at the same, initial offset. -/
theorem get_all_limit_zero_diverges {α : Type} (server : Nat → List α)
    (offset fuel : Nat) :
    (get_all_start (some offset) (some 0)).2 = 0 ∧
    get_all_run server 0 offset fuel = none ∧
    get_all_offsets server 0 offset fuel = List.replicate fuel offset := by
  refine ⟨rfl, ?_⟩
  induction fuel generalizing offset with
  | zero => exact ⟨rfl, rfl⟩
  | succ n ih =>
    have h : ¬ (server offset).length < 0 := Nat.not_lt_zero _
    rw [get_all_run_succ, get_all_offsets_succ, if_neg h, if_neg h, Nat.add_zero]
    rw [(ih offset).1, (ih offset).2]
    exact ⟨rfl, by rw [List.replicate_succ]⟩

theorem pages3Server_eval_0 : pages3Server 0 = List.replicate 1000 0 := by
  norm_num [pages3Server]

theorem pages3Server_eval_1000 : pages3Server 1000 = List.replicate 1000 1 := by
  norm_num [pages3Server]

theorem pages3Server_eval_2000 : pages3Server 2000 = List.replicate 37 2 := by
  norm_num [pages3Server]

/-- Helper: concrete evaluation of the run over pages of sizes
1000, 1000, 37 under limit 1000. -/
theorem get_all_run_pages3 :
    get_all_run pages3Server 1000 0 10 =
      some ([0, 1000, 2000],
        List.replicate 1000 0 ++ (List.replicate 1000 1 ++ List.replicate 37 2)) := by
  have e2 : get_all_run pages3Server 1000 2000 8 = some ([2000], List.replicate 37 2) := by
    show get_all_run pages3Server 1000 2000 (7 + 1) = _
    rw [get_all_run_succ, pages3Server_eval_2000]
    have hl : (List.replicate 37 (2 : Nat)).length < 1000 := by
      rw [List.length_replicate]; omega
    rw [if_pos hl]
  have e1 : get_all_run pages3Server 1000 1000 9 =
      some ([1000, 2000], List.replicate 1000 1 ++ List.replicate 37 2) := by
    show get_all_run pages3Server 1000 1000 (8 + 1) = _
    rw [get_all_run_succ, pages3Server_eval_1000]
    have hl : ¬ (List.replicate 1000 (1 : Nat)).length < 1000 := by
      rw [List.length_replicate]; omega
    rw [if_neg hl]
    norm_num [e2]
  show get_all_run pages3Server 1000 0 (9 + 1) = _
  rw [get_all_run_succ, pages3Server_eval_0]
  have hl : ¬ (List.replicate 1000 (0 : Nat)).length < 1000 := by
    rw [List.length_replicate]; omega
  rw [if_neg hl]
  norm_num [e1]

/-- C1 (amended): after a page whose record count is not strictly less
than the requested limit, `get_all` advances the offset by the nominal
limit (which coincides with the page's record count exactly when the page
has precisely `limit` records): in every terminating run the first
request is at the initial offset and each subsequent request offset is
the previous one plus `limit`; in particular, for successive pages of
sizes 1000, 1000, 37 with limit 1000, exactly 3 requests are issued at
offsets 0, 1000 and 2000, and exactly 2037 records are yielded. -/
theorem get_all_offset_advance :
    (∀ (α : Type) (server : Nat → List α) (limit offset fuel : Nat)
        (offs : List Nat) (items : List α),
        get_all_run server limit offset fuel = some (offs, items) →
        offs.head? = some offset ∧ offs.Chain' (fun a b => b = a + limit)) ∧
    (get_all_run pages3Server 1000 0 10).map (fun p => (p.1, p.2.length)) =
      some ([0, 1000, 2000], 2037) := by
  refine ⟨fun α server limit offset fuel offs items h =>
      get_all_run_offsets_spec server limit fuel offset offs items h, ?_⟩
  rw [get_all_run_pages3]
  simp only [Option.map_some', List.length_append, List.length_replicate]

/-- C1 witness: the offset-advance law instantiated on a concrete
two-page run with limit 2. -/
theorem get_all_offset_advance_witness :
    ([0, 2] : List Nat).head? = some 0 ∧ List.Chain' (fun a b => b = a + 2) [0, 2] :=
  get_all_offset_advance.1 Nat (fun off => if off = 0 then [1, 2] else [])
    2 0 3 [0, 2] [1, 2] (by decide)

/-- C1 counterexample: with limit 1000 and a first page of 1500 records
(record count not strictly less than the limit), the second request is
issued at offset 1000 — the nominal limit — and not at offset 1500, the
page's record count; so the offset is advanced by the nominal limit, not
by the page's record count as the claim states. -/
theorem get_all_offset_advance_counterexample :
    (get_all_run longPageServer 1000 0 5).map Prod.fst = some [0, 1000] ∧
    (longPageServer 0).length = 1500 ∧
    ([0, 1000] : List Nat) ≠ [0, 1500] := by
  have p0 : longPageServer 0 = List.replicate 1500 () := by norm_num [longPageServer]
  have p1 : longPageServer 1000 = [] := by norm_num [longPageServer]
  have e1 : get_all_run longPageServer 1000 1000 4 = some ([1000], []) := by
    show get_all_run longPageServer 1000 1000 (3 + 1) = _
    rw [get_all_run_succ, p1]
    norm_num
  have e0 : get_all_run longPageServer 1000 0 5 =
      some ([0, 1000], List.replicate 1500 () ++ []) := by
    show get_all_run longPageServer 1000 0 (4 + 1) = _
    rw [get_all_run_succ, p0]
    have hl : ¬ (List.replicate 1500 ()).length < 1000 := by
      rw [List.length_replicate]; omega
    rw [if_neg hl]
    norm_num [e1]
  refine ⟨?_, ?_, by decide⟩
  · rw [e0]; rfl
  · rw [p0, List.length_replicate]

/-! ## Request builder (`Socrata.get`, socrata.py lines 271-319, with
`utils.format_new_api_request` and `utils.clear_empty_values`)

`Socrata.get` builds a resource path from the dataset id and the
content-type token, an Accept header from the `format` keyword option,
and a query-parameter mapping from the named SoQL options plus all
remaining keyword arguments, prunes the `None` values, and hands the
triple to `_perform_request`. Parameter values are modelled as strings
(they are serialized on the wire); `Option.none` plays Python's `None`.
-/

/-- The ways the Python code under test can fail before performing a
request. -/
inductive PyError where
  | valueError (msg : String)
  | typeError (msg : String)
  | exception (msg : String)
deriving Repr, DecidableEq

/-- Modelled from the spec: the row-query path prefix. `utils.py` imports
`DEFAULT_API_PATH` from `sodapy2/constants.py`, where it is absent from
the source tree; the spec fixes the row-query path as
`/resource/` followed by the dataset id. -/
def DEFAULT_API_PATH : String := "/resource/"

/-- `utils.format_new_api_request` (utils.py lines 49-52). -/
def format_new_api_request (dataset_id content_type row_id : String) : String :=
  if row_id ≠ "" then
    DEFAULT_API_PATH ++ dataset_id ++ "/" ++ row_id ++ "." ++ content_type
  else
    DEFAULT_API_PATH ++ dataset_id ++ "." ++ content_type

/-- `utils.clear_empty_values` (utils.py lines 28-36): keep exactly the
pairs whose value is not `None`; any other value — the empty string
included — is kept. -/
def clear_empty_values (args : List (String × Option String)) :
    List (String × String) :=
  args.filterMap (fun p => p.2.map (fun v => (p.1, v)))

/-- The keyword options of a `Socrata.get` call (socrata.py lines
299-315): the `format` option feeding the Accept header, the nine named
SoQL options popped at lines 302-312, and `extra`, the keyword arguments
remaining after the pops, forwarded as additional parameters at line 315.
The SoQL option `where` is called `whereClause` because `where` is a
reserved word of Lean. -/
structure GetOpts where
  format : Option String
  select : Option String
  whereClause : Option String
  order : Option String
  group : Option String
  limit : Option String
  offset : Option String
  q : Option String
  query : Option String
  exclude_system_fields : Option String
  extra : List (String × Option String)
deriving Repr, DecidableEq

/-- A `get` call with no keyword options. -/
def noOpts : GetOpts :=
  ⟨none, none, none, none, none, none, none, none, none, none, []⟩

/-- The `$`-prefixed SoQL parameter entries built at socrata.py lines
302-312, in construction order. -/
def soql_params (o : GetOpts) : List (String × Option String) :=
  [("$select", o.select), ("$where", o.whereClause), ("$order", o.order),
   ("$group", o.group), ("$limit", o.limit), ("$offset", o.offset),
   ("$q", o.q), ("$query", o.query),
   ("$$exclude_system_fields", o.exclude_system_fields)]

/-- The parameter dictionary of `Socrata.get` before pruning:
`params.update(kwargs)` at line 315 with Python dict-update semantics — a
SoQL entry whose key also occurs among the additional keyword arguments
is overwritten by the keyword argument's value (modelled by dropping the
shadowed SoQL entry and keeping the keyword argument's entry), and keys
occurring only among the keyword arguments are added. `extra` stands for
the `kwargs` dict, whose keys are pairwise distinct in Python; on every
such list this list's key→value mapping is exactly the updated dict's
(entry order, which Python also keeps, carries no meaning here). -/
def get_params_raw (o : GetOpts) : List (String × Option String) :=
  (soql_params o).filter (fun p => (o.extra.lookup p.1).isNone) ++ o.extra

/-- The triple handed to `_perform_request` by `Socrata.get`. -/
structure GetRequest where
  resource : String
  headers : List (String × String)
  params : List (String × String)
deriving Repr, DecidableEq

/-- `Socrata.get` up to the `_perform_request` call (socrata.py lines
298-318). The body contains no validation and no raise statement — the
resource path interpolates the content-type token unchecked and the
leftover keyword arguments flow into the parameters — so the builder
always returns `Except.ok`; the `PyError` channel records how Python
could fail here, which the source never does. -/
def get_build (dataset_id content_type : String) (o : GetOpts) :
    Except PyError GetRequest :=
  let resource := format_new_api_request dataset_id content_type ""
  let headers := clear_empty_values [("Accept", o.format)]
  let params := clear_empty_values (get_params_raw o)
  Except.ok ⟨resource, headers, params⟩

/-- Modelled from the spec: the fixed content-type token enumeration of
spec section 4.1, also asserted by the library's own unit test
`test_get_invalid_type` (tests/unit/test_u_socrata.py lines 70-74). -/
def spec_content_type_tokens : List String := ["csv", "json", "rdfxml", "xml"]

/-- Helper: `get_build` always succeeds, and its request is the
path/header/parameter triple built from the options. -/
theorem get_build_eq (dataset_id content_type : String) (o : GetOpts) :
    get_build dataset_id content_type o =
      Except.ok ⟨format_new_api_request dataset_id content_type "",
        clear_empty_values [("Accept", o.format)],
        clear_empty_values (get_params_raw o)⟩ := rfl

/-- C6 (code evaluated at the failing input): a `get` call with the
unrecognized content-type token "error" does not fail — the request is
built, the invalid token is interpolated into the resource path, and no
Accept header is derived from it — whereas the library's own unit test
`test_get_invalid_type` expects a ValueError naming the recognized
tokens before any request is sent. -/
theorem get_build_invalid_content_type :
    get_build "sodapy2-pytest" "error" noOpts =
      Except.ok ⟨"/resource/sodapy2-pytest.error", [], []⟩ ∧
    "error" ∉ spec_content_type_tokens :=
  ⟨rfl, by decide⟩

/-- A `get` call whose only keyword option is the unrecognized key
`foo` with value `bar`. -/
def fooOpts : GetOpts :=
  ⟨none, none, none, none, none, none, none, none, none, none,
   [("foo", some "bar")]⟩

/-- C3 counterexample: a `get` call supplying the option key "foo",
which is outside the recognized option set, is not rejected: the request
is built successfully and the transmitted query parameters contain
("foo", "bar"). -/
theorem get_unknown_key_not_rejected :
    get_build "abcd-1234" "json" fooOpts =
      Except.ok ⟨"/resource/abcd-1234.json", [], [("foo", "bar")]⟩ ∧
    ("foo", "bar") ∈ (GetRequest.mk "/resource/abcd-1234.json" []
      [("foo", "bar")]).params :=
  ⟨rfl, by decide⟩

/-- C3 (amended): row-query calls perform no option-key whitelist check:
`get` never fails, and every supplied option key outside the recognized
set is forwarded unchanged, with its value, into the transmitted query
parameters of the request it builds. -/
theorem get_forwards_unknown_keys (dataset_id content_type : String)
    (o : GetOpts) (k v : String) (r : GetRequest)
    (hk : (k, some v) ∈ o.extra)
    (hr : get_build dataset_id content_type o = Except.ok r) :
    (k, v) ∈ r.params := by
  rw [get_build_eq] at hr
  have hr' := (Except.ok.inj hr).symm
  subst hr'
  show (k, v) ∈ clear_empty_values (get_params_raw o)
  unfold clear_empty_values
  rw [List.mem_filterMap]
  refine ⟨(k, some v), ?_, rfl⟩
  unfold get_params_raw
  exact List.mem_append_right _ hk

/-- C3 witness: the forwarding law instantiated on the `foo` option. -/
theorem get_forwards_unknown_keys_witness :
    ("foo", "bar") ∈ (GetRequest.mk "/resource/abcd-1234.json" []
      [("foo", "bar")]).params :=
  get_forwards_unknown_keys "abcd-1234" "json" fooOpts "foo" "bar"
    (GetRequest.mk "/resource/abcd-1234.json" [] [("foo", "bar")])
    (by decide) rfl

/-- A `get` call whose only keyword option is `order` set to the empty
string. -/
def orderEmptyOpts : GetOpts :=
  ⟨none, none, none, some "", none, none, none, none, none, none, []⟩

/-- C5 counterexample: a `get` call that supplies no order option
transmits no query parameters at all — in particular no `$order`
parameter set to the row-identifier field `:id`; the default-ordering
policy stated by the claim is absent from the code. -/
theorem get_no_default_order :
    get_build "abcd-1234" "json" noOpts =
      Except.ok ⟨"/resource/abcd-1234.json", [], []⟩ ∧
    ("$order", ":id") ∉ (GetRequest.mk "/resource/abcd-1234.json" [] []).params :=
  ⟨rfl, by decide⟩

/-- Helper: a lookup misses when no key of the list equals the probe. -/
theorem lookup_none_of_keys_ne (l : List (String × Option String)) (k : String)
    (h : ∀ p ∈ l, p.1 ≠ k) : l.lookup k = none := by
  induction l with
  | nil => rfl
  | cons a es ih =>
    have hk : (k == a.1) = false := by
      rw [beq_eq_false_iff_ne]
      intro he
      exact h a (List.mem_cons_self a es) he.symm
    obtain ⟨ka, va⟩ := a
    simp only [List.lookup, hk]
    exact ih (fun p hp => h p (List.mem_cons_of_mem _ hp))

/-- C5 (amended): `get` applies no default ordering: when the caller
supplies neither an order option nor a literal `$order` keyword
argument, the transmitted parameters contain no `$order` entry at all;
when the caller supplies an order value — the empty string included — and
no literal `$order` keyword argument, exactly that value is transmitted
as `$order`; a literal `$order` keyword argument wins the dict update
against the order option and is transmitted with its own value. -/
theorem get_order_policy (dataset_id content_type : String) (o : GetOpts)
    (r : GetRequest) (hr : get_build dataset_id content_type o = Except.ok r) :
    (o.order = none → (∀ p ∈ o.extra, p.1 ≠ "$order") →
      ∀ v, ("$order", v) ∉ r.params) ∧
    (∀ s, o.order = some s → (∀ p ∈ o.extra, p.1 ≠ "$order") →
      ("$order", s) ∈ r.params) ∧
    (∀ v, ("$order", some v) ∈ o.extra → ("$order", v) ∈ r.params) := by
  rw [get_build_eq] at hr
  have hr' := (Except.ok.inj hr).symm
  subst hr'
  refine ⟨?_, ?_, ?_⟩
  · intro hord hextra v hmem
    have hmem' : ("$order", v) ∈ clear_empty_values (get_params_raw o) := hmem
    unfold clear_empty_values at hmem'
    rw [List.mem_filterMap] at hmem'
    obtain ⟨⟨k, ov⟩, hx, hfx⟩ := hmem'
    cases ov with
    | none => simp at hfx
    | some w =>
      simp only [Option.map_some', Option.some.injEq, Prod.mk.injEq] at hfx
      obtain ⟨hk, -⟩ := hfx
      subst hk
      unfold get_params_raw at hx
      rw [List.mem_append] at hx
      rcases hx with hfil | hex
      · have h9 := (List.mem_filter.mp hfil).1
        unfold soql_params at h9
        simp only [List.mem_cons, List.not_mem_nil, or_false, Prod.mk.injEq] at h9
        rcases h9 with ⟨he, -⟩ | ⟨he, -⟩ | ⟨-, hv2⟩ | ⟨he, -⟩ | ⟨he, -⟩ |
          ⟨he, -⟩ | ⟨he, -⟩ | ⟨he, -⟩ | ⟨he, -⟩
        · exact absurd he (by decide)
        · exact absurd he (by decide)
        · rw [hord] at hv2; exact Option.noConfusion hv2
        · exact absurd he (by decide)
        · exact absurd he (by decide)
        · exact absurd he (by decide)
        · exact absurd he (by decide)
        · exact absurd he (by decide)
        · exact absurd he (by decide)
      · exact (hextra _ hex) rfl
  · intro s hs hextra
    show ("$order", s) ∈ clear_empty_values (get_params_raw o)
    unfold clear_empty_values
    rw [List.mem_filterMap]
    refine ⟨("$order", o.order), ?_, by rw [hs]; rfl⟩
    unfold get_params_raw
    refine List.mem_append_left _ ?_
    rw [List.mem_filter]
    constructor
    · unfold soql_params
      simp
    · rw [show (("$order", o.order) : String × Option String).1 = "$order" from rfl,
        lookup_none_of_keys_ne o.extra "$order" hextra]
      rfl
  · intro v hv
    show ("$order", v) ∈ clear_empty_values (get_params_raw o)
    unfold clear_empty_values
    rw [List.mem_filterMap]
    refine ⟨("$order", some v), ?_, rfl⟩
    unfold get_params_raw
    exact List.mem_append_right _ hv

/-- C5 witness: ordering by the explicit empty string, with no competing
`$order` keyword argument, is transmitted verbatim. -/
theorem get_order_policy_witness :
    ("$order", "") ∈ (GetRequest.mk "/resource/abcd-1234.json" []
      [("$order", "")]).params :=
  (get_order_policy "abcd-1234" "json" orderEmptyOpts
    (GetRequest.mk "/resource/abcd-1234.json" [] [("$order", "")]) rfl).2.1 "" rfl
    (fun p hp => absurd hp (List.not_mem_nil p))

/-! ## Status gate (`Socrata._perform_request`, socrata.py lines 365-366,
and `utils.raise_for_status`, utils.py lines 6-25)

`raise_for_status` augments its message with the `message` field of a
JSON error body when one is present; that affects only the message text,
never whether the call raises — which is what the claims are about — so
the message is modelled without the augmentation hook.
-/

/-- The message assembled by `utils.raise_for_status` (utils.py lines
10-16): the empty string is the source's sentinel for "no error". -/
def http_error_msg (status : Nat) (reason : String) : String :=
  if 400 ≤ status ∧ status < 500 then
    toString status ++ " Client Error: " ++ reason
  else if 500 ≤ status ∧ status < 600 then
    toString status ++ " Server Error: " ++ reason
  else ""

/-- `utils.raise_for_status` raises exactly when the assembled message is
nonempty (utils.py line 18: `if http_error_msg:`). -/
def raise_for_status_raises (status : Nat) (reason : String) : Bool :=
  http_error_msg status reason != ""

/-- The status gate of `Socrata._perform_request` (socrata.py lines
365-366): `raise_for_status` runs only when the status is neither 200 nor
202, and the request fails exactly when that call raises. -/
def perform_request_raises (status : Nat) (reason : String) : Bool :=
  if status = 200 ∨ status = 202 then false
  else raise_for_status_raises status reason

/-- Helper: concatenation around a nonempty middle chunk is nonempty. -/
theorem append3_ne_empty (t mid r : String) (hmid : mid.length ≠ 0) :
    t ++ mid ++ r ≠ "" := by
  intro h
  have hl := congrArg String.length h
  rw [String.length_append, String.length_append] at hl
  have h0 : ("" : String).length = 0 := rfl
  rw [h0] at hl
  omega

/-- Helper: the `raise_for_status` message is empty exactly outside the
4xx and 5xx ranges. -/
theorem http_error_msg_empty_iff (status : Nat) (reason : String) :
    http_error_msg status reason = "" ↔ ¬ (400 ≤ status ∧ status < 600) := by
  unfold http_error_msg
  by_cases h4 : 400 ≤ status ∧ status < 500
  · rw [if_pos h4]
    simp only [iff_false_intro
      (append3_ne_empty (toString status) " Client Error: " reason (by decide)),
      false_iff]
    omega
  · rw [if_neg h4]
    by_cases h5 : 500 ≤ status ∧ status < 600
    · rw [if_pos h5]
      simp only [iff_false_intro
        (append3_ne_empty (toString status) " Server Error: " reason (by decide)),
        false_iff]
      omega
    · rw [if_neg h5]
      simp only [true_iff]
      omega

/-- C4 (amended): `_perform_request` raises iff the status is in the
range 400..599: statuses 200 and 202 skip `raise_for_status` entirely,
and every status outside 4xx/5xx — 3xx redirects and non-200/202 2xx
codes included — is also accepted without raising, because
`raise_for_status` assembles a nonempty error message only for 4xx and
5xx statuses. -/
theorem status_gate_iff (status : Nat) (reason : String) :
    perform_request_raises status reason = true ↔
      (400 ≤ status ∧ status < 600) := by
  unfold perform_request_raises raise_for_status_raises
  by_cases h200 : status = 200 ∨ status = 202
  · rw [if_pos h200]
    simp only [Bool.false_eq_true, false_iff]
    rcases h200 with h | h <;> omega
  · rw [if_neg h200]
    rw [bne_iff_ne, ne_eq, http_error_msg_empty_iff]
    exact not_not

/-- C4 counterexample: a 301 redirect and a 201 Created response are
neither 200 nor 202, yet `_perform_request` accepts both without
raising, contrary to the claim that every status other than 200 and 202
raises. -/
theorem status_gate_counterexample :
    perform_request_raises 301 "Moved Permanently" = false ∧
    ¬ (301 = 200 ∨ 301 = 202) ∧
    perform_request_raises 201 "Created" = false := by decide

/-! ## Structured errors (`SodaHTTPError`, response.py lines 29-91)

JSON values are modelled by `JsonVal`; the external parser `json.loads`
is a parameter returning `none` where the Python call would raise
`json.JSONDecodeError`.
-/

/-- A JSON value, the possible result of `json.loads`. -/
inductive JsonVal where
  | null
  | bool (b : Bool)
  | num (n : Int)
  | str (s : String)
  | arr (elems : List JsonVal)
  | obj (fields : List (String × JsonVal))
deriving Repr

/-- The `error_detail` attribute of a `SodaHTTPError`: either a
non-string Python value (a mapping such as the default `dict()`, or a
parsed JSON value), or a string that did not parse as JSON. -/
inductive ErrorDetail where
  | parsed (v : JsonVal)
  | raw (s : String)
deriving Repr

/-- The `error_detail` computation of `SodaHTTPError.__init__`
(response.py lines 52-57): the keyword argument defaults to the empty
mapping; a non-string value is kept as is; a string value is replaced by
its JSON parse when `json.loads` succeeds, and on `json.JSONDecodeError`
the handler does nothing — so the attribute keeps the original,
unparsed string. -/
def soda_http_error_init_detail (json_loads : String → Option JsonVal) :
    Option ErrorDetail → ErrorDetail
  | none => .parsed (.obj [])
  | some (.parsed v) => .parsed v
  | some (.raw s) =>
    match json_loads s with
    | some v => .parsed v
    | none => .raw s

/-- C7 (code evaluated at the failing input): when the error body fails
to parse as JSON, `SodaHTTPError.__init__` leaves `error_detail` equal to
the raw, unparsed string — not the empty mapping that the claim (and the
code's own comment at response.py line 57) promises; a parsable body does
become the parsed value, and an absent body defaults to the empty
mapping. -/
theorem error_detail_parse_failure_keeps_string :
    soda_http_error_init_detail (fun _ => none) (some (.raw "not json")) =
      .raw "not json" ∧
    ErrorDetail.raw "not json" ≠ ErrorDetail.parsed (.obj []) ∧
    soda_http_error_init_detail
        (fun _ => some (.arr [.num 1])) (some (.raw "[1]")) =
      .parsed (.arr [.num 1]) ∧
    soda_http_error_init_detail (fun _ => none) none = .parsed (.obj []) :=
  ⟨rfl, fun h => ErrorDetail.noConfusion h, rfl, rfl⟩

/-- `SodaHTTPError.__str__` (response.py lines 59-74): the rendering of
the structured error from its status code, reason and request URL. In
the 4xx and 5xx branches the message is rebuilt with the url suffix when
`self.request_url` is truthy (a nonempty string); the fallback branch
carries neither the url nor the `See error_detail` note. -/
def soda_http_error_str (status_code : Nat) (reason request_url : String) :
    String :=
  if 400 ≤ status_code ∧ status_code < 500 then
    if request_url ≠ "" then
      "Client Error " ++ toString status_code ++ ": " ++ reason ++
        " for url " ++ request_url ++ ". See error_detail."
    else
      "Client Error " ++ toString status_code ++ ": " ++ reason ++
        ". See error_detail."
  else if 500 ≤ status_code ∧ status_code < 600 then
    if request_url ≠ "" then
      "Server Error " ++ toString status_code ++ ": " ++ reason ++
        " for url " ++ request_url ++ ". See error_detail."
    else
      "Server Error " ++ toString status_code ++ ": " ++ reason ++
        ". See error_detail."
  else
    "Undefined Error " ++ toString status_code ++ ": " ++ reason

/-- The amended rendering law, stated the spec's way: a category prefix
chosen by status class, the base message, and — only for the client- and
server-error classes — an optional url suffix and the trailing
`See error_detail.` note. -/
def render_spec (status_code : Nat) (reason request_url : String) : String :=
  let category :=
    if 400 ≤ status_code ∧ status_code < 500 then "Client Error "
    else if 500 ≤ status_code ∧ status_code < 600 then "Server Error "
    else "Undefined Error "
  let base := category ++ toString status_code ++ ": " ++ reason
  if 400 ≤ status_code ∧ status_code < 600 then
    base ++ (if request_url ≠ "" then " for url " ++ request_url else "") ++
      ". See error_detail."
  else base

/-- C8 (amended): the error rendering agrees everywhere with the law
"category by status class; url suffix and the trailing note only in the
client/server branches", and the two concrete 404 renderings of the
claim hold exactly. -/
theorem soda_http_error_str_spec :
    (∀ (s : Nat) (r u : String),
        soda_http_error_str s r u = render_spec s r u) ∧
    soda_http_error_str 404 "Not Found" "" =
      "Client Error 404: Not Found. See error_detail." ∧
    soda_http_error_str 404 "Not Found" "https://example.com/" =
      "Client Error 404: Not Found for url https://example.com/. See error_detail." := by
  refine ⟨?_, by decide, by decide⟩
  intro s r u
  unfold soda_http_error_str render_spec
  by_cases h4 : 400 ≤ s ∧ s < 500
  · have h46 : 400 ≤ s ∧ s < 600 := ⟨h4.1, by omega⟩
    rw [if_pos h4, if_pos h4, if_pos h46]
    by_cases hu : u ≠ ""
    · rw [if_pos hu, if_pos hu]
      simp [String.append_assoc]
    · rw [if_neg hu, if_neg hu]
      simp [String.append_assoc]
  · rw [if_neg h4, if_neg h4]
    by_cases h5 : 500 ≤ s ∧ s < 600
    · have h46 : 400 ≤ s ∧ s < 600 := ⟨by omega, h5.2⟩
      rw [if_pos h5, if_pos h5, if_pos h46]
      by_cases hu : u ≠ ""
      · rw [if_pos hu, if_pos hu]
        simp [String.append_assoc]
      · rw [if_neg hu, if_neg hu]
        simp [String.append_assoc]
    · have h46 : ¬ (400 ≤ s ∧ s < 600) := by omega
      rw [if_neg h5, if_neg h5, if_neg h46]

/-- C8 counterexample: status 300 with a captured request URL renders as
the bare "Undefined Error 300: Multiple Choices" — the url suffix and the
trailing note are not appended in the non-4xx/5xx branch, contrary to
the claim's unconditional "appended when a request URL was captured". -/
theorem soda_http_error_str_counterexample :
    soda_http_error_str 300 "Multiple Choices" "https://example.com/" =
      "Undefined Error 300: Multiple Choices" ∧
    "Undefined Error 300: Multiple Choices" ≠
      "Undefined Error 300: Multiple Choices for url https://example.com/. See error_detail." := by
  constructor
  · decide
  · decide

/-! ## Response decoder (`Socrata._perform_request`, socrata.py lines
368-387)

After the status gate, an empty body is returned as-is; otherwise the
content-type header is normalized with `.strip().lower()` and dispatched
through the `re.match` chain (anchored at the start of the string, hence
prefix tests). `response.json()` and `json.loads` are the abstract
parser `json_loads` (`none` = the parse raises), `csv.reader` the
abstract `csv_reader`.
-/

/-- The value `_perform_request` produces from a gated response. -/
inductive DecodedResponse where
  | passthrough
  | json (v : JsonVal)
  | jsonError
  | csvRows (rows : List (List String))
  | rawBytes (content : List Nat)
  | rawText (s : String)
  | unknownFormat (content_type : String)
deriving Repr

/-- The decode step of `Socrata._perform_request` (socrata.py lines
368-387). `passthrough` is the whole-response return for an empty body
(line 370); `jsonError` is the uncaught parse error of `response.json()`
on a JSON-labelled body; `unknownFormat` carries the normalized
content-type named by the raised exception (line 387). -/
def perform_request_decode (json_loads : String → Option JsonVal)
    (csv_reader : String → List (List String))
    (text : String) (content : List Nat) (content_type_header : String) :
    DecodedResponse :=
  if text = "" then .passthrough
  else if (content_type_header.trim.toLower).startsWith "application/json" ∨
      (content_type_header.trim.toLower).startsWith "application/vnd.geo+json" then
    match json_loads text with
    | some v => .json v
    | none => .jsonError
  else if (content_type_header.trim.toLower).startsWith "text/csv" then
    .csvRows (csv_reader text)
  else if (content_type_header.trim.toLower).startsWith "application/rdf+xml" then
    .rawBytes content
  else if (content_type_header.trim.toLower).startsWith "text/plain" then
    match json_loads text with
    | some v => .json v
    | none => .rawText text
  else .unknownFormat (content_type_header.trim.toLower)

/-- The format classes of the spec's dispatch table. -/
inductive FormatClass where
  | jsonFamily
  | csv
  | rdfxml
  | plain
  | unknown
deriving Repr, DecidableEq

/-- Classification of a normalized content-type string into the spec's
dispatch table rows. -/
def classify_content_type (ct : String) : FormatClass :=
  if ct.startsWith "application/json" ∨ ct.startsWith "application/vnd.geo+json" then
    .jsonFamily
  else if ct.startsWith "text/csv" then .csv
  else if ct.startsWith "application/rdf+xml" then .rdfxml
  else if ct.startsWith "text/plain" then .plain
  else .unknown

/-- The decoder as the spec words it: empty body → untyped passthrough
with no dispatch; otherwise dispatch the normalized lower-cased
content-type through the table — JSON family → parsed JSON value, CSV →
rows of string cells (the full reader output, header row included),
RDF/XML → raw bytes undecoded, plain text → best-effort JSON then raw
text, anything else → an unrecognized-format error naming the
content-type. -/
def decode_spec (json_loads : String → Option JsonVal)
    (csv_reader : String → List (List String))
    (text : String) (content : List Nat) (content_type_header : String) :
    DecodedResponse :=
  if text = "" then .passthrough
  else
    match classify_content_type (content_type_header.trim.toLower) with
    | .jsonFamily =>
      match json_loads text with
      | some v => .json v
      | none => .jsonError
    | .csv => .csvRows (csv_reader text)
    | .rdfxml => .rawBytes content
    | .plain =>
      match json_loads text with
      | some v => .json v
      | none => .rawText text
    | .unknown => .unknownFormat (content_type_header.trim.toLower)

/-- C9: the decode step of `_perform_request` realizes exactly the
spec's dispatch table on the normalized lower-cased content-type, and an
empty body with an accepted status is returned as-is, with no
content-type dispatch and no raising. -/
theorem perform_request_decode_spec :
    (∀ (json_loads : String → Option JsonVal)
        (csv_reader : String → List (List String))
        (text : String) (content : List Nat) (cth : String),
        perform_request_decode json_loads csv_reader text content cth =
          decode_spec json_loads csv_reader text content cth) ∧
    (∀ (json_loads : String → Option JsonVal)
        (csv_reader : String → List (List String))
        (content : List Nat) (cth : String),
        perform_request_decode json_loads csv_reader "" content cth =
          .passthrough) := by
  constructor
  · intro jl cr text content cth
    unfold perform_request_decode decode_spec classify_content_type
    by_cases ht : text = ""
    · rw [if_pos ht, if_pos ht]
    · rw [if_neg ht, if_neg ht]
      by_cases h1 : (cth.trim.toLower).startsWith "application/json" ∨
          (cth.trim.toLower).startsWith "application/vnd.geo+json"
      · rw [if_pos h1, if_pos h1]
      · rw [if_neg h1, if_neg h1]
        by_cases h2 : (cth.trim.toLower).startsWith "text/csv"
        · rw [if_pos h2, if_pos h2]
        · rw [if_neg h2, if_neg h2]
          by_cases h3 : (cth.trim.toLower).startsWith "application/rdf+xml"
          · rw [if_pos h3, if_pos h3]
          · rw [if_neg h3, if_neg h3]
            by_cases h5 : (cth.trim.toLower).startsWith "text/plain"
            · rw [if_pos h5, if_pos h5]
            · rw [if_neg h5, if_neg h5]
  · intro jl cr content cth
    rfl

/-- C4 witness: the gate law instantiated at status 404. -/
theorem status_gate_iff_witness : 400 ≤ 404 ∧ 404 < 600 :=
  (status_gate_iff 404 "Not Found").mp (by decide)
